import Mathlib

/-!
# Verification of the socket-benchmark connection orchestration engine

Shallow embedding of the connection orchestration and lifecycle-tracking
core (`SocketClient.connect`, `ConnectionTester.handleDisconnection`,
`ConnectionTester.testConnections`, `ConnectionTester.createConnection`,
`ConnectionTester.disconnectAll`, `ConnectionTester.getConnectionStats`)
together with proofs of the spec's testable properties.

Conventions of the embedding:
* JS numbers holding counts are `Nat` (or `Int` where the source applies
  `Math.max(0, ...)` and the floor is the point of the claim).
* Optional TS fields (`retryCount?`, `isActive?`, ...) are `Option`;
  JS truthiness on an optional boolean field is `= some true`.
* Promise rejection / thrown errors are `Except.error` carrying the
  extracted message string; wall-clock timestamps are abstract `Nat`
  parameters (`Date.now()` is environmental and not modelled).
-/

namespace SocketBenchmark

/-- Structure `ConnectionResult` from `types.ts`: one outcome record per requested
connection slot.  `disconnectedAt` (a JS `Date`) is an abstract `Nat`
timestamp. -/
structure ConnectionResult where
  success : Bool
  connectionTime : Nat := 0
  errorMessage : Option String := none
  socketId : Option String := none
  retryCount : Option Nat := none
  finalAttempt : Option Bool := none
  isActive : Option Bool := none
  disconnectedAt : Option Nat := none
  disconnectionReason : Option String := none
  connectionDuration : Option Nat := none
  spontaneousDisconnect : Option Bool := none
deriving DecidableEq, Repr, Inhabited

/-!
## Connection Attempt Unit: `SocketClient.connect`

One call of `attemptConnection` either resolves with a `ConnectionResult`
(success or `connect_error`/timeout, which resolve with `success: false`)
or rejects; an `AttemptFun` gives the resolution of each attempt index.
-/

/-- Resolution of attempt number `k` of `attemptConnection`. -/
abbrev AttemptFun := Nat → Except String ConnectionResult

/-- JS `attemptResult.errorMessage || 'Unknown error'` (`undefined` and the
empty string are both falsy). -/
def orUnknown (msg : Option String) : String :=
  match msg with
  | some s => if s = "" then "Unknown error" else s
  | none => "Unknown error"

/-- The terminal error message built after all attempts failed. -/
def failMsg (attempts : Nat) (lastError : String) : String :=
  "Failed after " ++ toString attempts ++ " attempts. Last error: " ++ lastError

/-- The outcome `connect` returns when every attempt failed. -/
def exhaustedResult (maxRetries : Nat) (lastError : String) : ConnectionResult :=
  { success := false
    errorMessage := some (failMsg (maxRetries + 1) lastError)
    retryCount := some maxRetries
    finalAttempt := some true }

/-- The retry loop of `SocketClient.connect`, recursing on the number of
remaining loop iterations (`maxRetries + 1` initially).  On a successful
attempt it returns the attempt's result with `retryCount` and
`finalAttempt` (`attempt === maxRetries`) spliced in; otherwise it records
the last error and moves to the next attempt. -/
def connectAux (f : AttemptFun) (maxRetries : Nat) :
    Nat → Nat → String → ConnectionResult
  | 0, _, lastError => exhaustedResult maxRetries lastError
  | remaining + 1, attempt, lastError =>
    match f attempt with
    | .ok r =>
      if r.success then
        { r with retryCount := some attempt, finalAttempt := some (attempt == maxRetries) }
      else
        connectAux f maxRetries remaining (attempt + 1) (orUnknown r.errorMessage)
    | .error e => connectAux f maxRetries remaining (attempt + 1) e

/-- Function `SocketClient.connect`: up to `maxRetries + 1` attempts starting at
attempt `0` with `lastError = ''`. -/
def connect (f : AttemptFun) (maxRetries : Nat) : ConnectionResult :=
  connectAux f maxRetries (maxRetries + 1) 0 ""

/-- Number of attempts the loop actually performs (helper recursion
mirroring `connectAux`). -/
def attemptsUsedAux (f : AttemptFun) : Nat → Nat → Nat
  | 0, _ => 0
  | remaining + 1, attempt =>
    match f attempt with
    | .ok r => if r.success then 1 else 1 + attemptsUsedAux f remaining (attempt + 1)
    | .error _ => 1 + attemptsUsedAux f remaining (attempt + 1)

/-- Number of attempts performed by `connect f maxRetries`. -/
def attemptsUsed (f : AttemptFun) (maxRetries : Nat) : Nat :=
  attemptsUsedAux f (maxRetries + 1) 0

/-- Formula `retryDelay * Math.pow(2, attempt - 1)`: the backoff awaited before a
non-first attempt. -/
def backoffDelay (retryDelay attempt : Nat) : Nat :=
  retryDelay * 2 ^ (attempt - 1)

/-- The sequence of backoff delays actually awaited by the retry loop:
nothing before attempt 0, `backoffDelay retryDelay attempt` before every
later attempt the loop reaches. -/
def connectDelaysAux (f : AttemptFun) (retryDelay : Nat) : Nat → Nat → List Nat
  | 0, _ => []
  | remaining + 1, attempt =>
    let here := if attempt == 0 then [] else [backoffDelay retryDelay attempt]
    match f attempt with
    | .ok r =>
      if r.success then here
      else here ++ connectDelaysAux f retryDelay remaining (attempt + 1)
    | .error _ => here ++ connectDelaysAux f retryDelay remaining (attempt + 1)

/-- Delays awaited by `connect f maxRetries` with base delay `retryDelay`. -/
def connectDelays (f : AttemptFun) (maxRetries retryDelay : Nat) : List Nat :=
  connectDelaysAux f retryDelay (maxRetries + 1) 0

/-!
## Connection Orchestrator: `ConnectionTester`

Client identities are the `client-${index}` strings of `createConnection`,
modelled at the character level so that the identity-string parse in
`handleDisconnection` is embedded exactly.
-/

/-- Leading decimal digits of a character list (what JS `parseInt`
consumes). -/
def leadingDigits : List Char → List Char
  | c :: cs => if c.isDigit then c :: leadingDigits cs else []
  | [] => []

/-- JS `parseInt(s, 10)`: parse the leading decimal digits, `NaN` (here
`none`) when there are none.  (Sign prefixes never occur in the identities
this program generates.) -/
def parseIntJS (s : List Char) : Option Nat :=
  match leadingDigits s with
  | [] => none
  | ds => some (ds.foldl (fun acc c => acc * 10 + (c.toNat - 48)) 0)

/-- JS `String.prototype.replace` with a string pattern: replace the first
occurrence of `pat` by `repl`. -/
def replaceFirst (pat repl : List Char) : List Char → List Char
  | [] => []
  | c :: cs =>
    if pat.isPrefixOf (c :: cs) then repl ++ (c :: cs).drop pat.length
    else c :: replaceFirst pat repl cs

/-- The identity `client-${index}` that `createConnection` gives its
`SocketClient`. -/
def clientId (index : Nat) : List Char :=
  ("client-" ++ toString index).data

/-- Parse `parseInt(clientId.replace('client-', ''))` from
`handleDisconnection`. -/
def parseClientIndex (cid : List Char) : Option Nat :=
  parseIntJS (replaceFirst "client-".data [] cid)

/-- The lookup of `handleDisconnection`:
`results.findIndex(result => results.indexOf(result) === clientIndex)`.
Since the pushed records are distinct objects, `indexOf(result)` is the
position of `result`, so the scan succeeds exactly at position
`clientIndex` when that is in range, and yields `-1` (`none`)
otherwise. -/
def lookupResultIndex (results : List ConnectionResult) (cid : List Char) :
    Option Nat :=
  match parseClientIndex cid with
  | none => none
  | some k => if k < results.length then some k else none

/-- The mutable fields of `ConnectionTester` the core tracks.
`activeConnections` is `Int` so that the `Math.max(0, ...)` floor in
`handleDisconnection` is modelled as in the source. -/
structure TesterState where
  results : List ConnectionResult
  activeConnections : Int
  disconnectedConnections : Nat
  spontaneousDisconnections : Nat
deriving DecidableEq, Repr, Inhabited

/-- The record mutation `handleDisconnection` performs on a matched
record. -/
def applyDisconnection (now duration : Nat) (reason : String)
    (r : ConnectionResult) : ConnectionResult :=
  { r with isActive := some false
           disconnectedAt := some now
           disconnectionReason := some reason
           connectionDuration := some duration
           spontaneousDisconnect := some true }

/-- Handler `ConnectionTester.handleDisconnection`: look the record up by the
parsed identity, and when the guard `resultIndex !== -1 &&
results[resultIndex].success` holds, rewrite the record and bump the
counters (`activeConnections` floored at zero by `Math.max`). -/
def handleDisconnection (s : TesterState) (cid : List Char) (reason : String)
    (duration now : Nat) : TesterState :=
  match lookupResultIndex s.results cid with
  | none => s
  | some i =>
    if (s.results.getD i default).success then
      { s with
          results := s.results.set i
            (applyDisconnection now duration reason (s.results.getD i default))
          activeConnections := max 0 (s.activeConnections - 1)
          disconnectedConnections := s.disconnectedConnections + 1
          spontaneousDisconnections := s.spontaneousDisconnections + 1 }
    else s

/-- The per-record marking of `disconnectAll`: if the record is still
active, mark it manually disconnected. -/
def markManualDisconnect (now : Nat) (r : ConnectionResult) : ConnectionResult :=
  if r.isActive = some true then
    { r with isActive := some false
             disconnectedAt := some now
             disconnectionReason := some "manual_disconnect"
             spontaneousDisconnect := some false }
  else r

/-- State effect of `ConnectionTester.disconnectAll`: every still-active
record is marked manually disconnected, and `activeConnections` is reset
to `0`.  (At shutdown `clients.length = results.length`: every
`createConnection` call pushed one client and, by then, one record.) -/
def disconnectAllState (s : TesterState) (now : Nat) : TesterState :=
  { s with results := s.results.map (markManualDisconnect now)
           activeConnections := 0 }

/-- Observable order of operations inside `disconnectAll`. -/
inductive ShutdownEvent
  | mark (idx : Nat)
  | close (idx : Nat)
deriving DecidableEq, Repr

/-- Execution order of `disconnectAll`: the promise executors of the
`clients.map` run synchronously, index by index, each marking
`results[index]` (when still active) immediately before calling
`client.disconnect()`. -/
def shutdownTrace (s : TesterState) : List ShutdownEvent :=
  (List.range s.results.length).flatMap fun i =>
    (if (s.results.getD i default).isActive = some true
     then [ShutdownEvent.mark i] else [])
      ++ [ShutdownEvent.close i]

/-- Method `ConnectionTester.createConnection`: the record pushed for one slot.
A normally-resolved `connect` result gets `isActive = result.success`
spliced in; a thrown error (`Except.error`) is caught and turned into a
failed record with `retryCount = maxRetries` and `finalAttempt = true` —
nothing propagates out of the per-connection path. -/
def createConnectionRecord (maxRetries : Nat)
    (outcome : Except String ConnectionResult) : ConnectionResult :=
  match outcome with
  | .ok r => { r with isActive := some r.success }
  | .error e =>
    { success := false
      errorMessage := some e
      retryCount := some maxRetries
      finalAttempt := some true }

/-- Appending one slot's outcome to the orchestrator, as
`createConnection` does: push the record, and increment
`activeConnections` when it is a success. -/
def appendOutcome (s : TesterState) (maxRetries : Nat)
    (outcome : Except String ConnectionResult) : TesterState :=
  let r := createConnectionRecord maxRetries outcome
  { s with results := s.results ++ [r]
           activeConnections :=
             if r.success then s.activeConnections + 1 else s.activeConnections }

/-!
## Chunked ramp-up: the loops of `ConnectionTester.testConnections`
-/

/-- The slots of the chunks issued by the outer loop
`for (i = 0; i < targetConnections; i += chunkSize)`, starting at slot
`i`: each chunk covers the slots `i + j` with `j < chunkSize` and
`i + j < targetConnections`.  The loop advances `i` by `rate ≥ 1` per
iteration, so it runs at most `target` iterations; `fuel` bounds the
remaining iterations to keep the recursion structural.  (With `rate = 0`
the source loop would not terminate; the guard keeps the model total.) -/
def chunkSlotsAux (target rate : Nat) : Nat → Nat → List (List Nat)
  | 0, _ => []
  | fuel + 1, i =>
    if i < target ∧ 0 < rate then
      List.range' i (min rate (target - i)) :: chunkSlotsAux target rate fuel (i + rate)
    else []

/-- The chunks of the whole ramp-up (`fuel = target` covers every
iteration of the source loop). -/
def chunkSlots (target rate : Nat) : List (List Nat) :=
  chunkSlotsAux target rate target 0

/-- One step of the ramp-up schedule. -/
inductive RampEvent
  | chunk (slots : List Nat)
  | pause
deriving DecidableEq, Repr

/-- Execution order of the ramp-up from slot `i`: each chunk is launched
and awaited as a whole, and the 1-second pause is taken only when
`i + chunkSize < targetConnections`, i.e. strictly between chunks. -/
def rampScheduleAux (target rate : Nat) : Nat → Nat → List RampEvent
  | 0, _ => []
  | fuel + 1, i =>
    if i < target ∧ 0 < rate then
      RampEvent.chunk (List.range' i (min rate (target - i))) ::
        (if i + rate < target
         then RampEvent.pause :: rampScheduleAux target rate fuel (i + rate)
         else rampScheduleAux target rate fuel (i + rate))
    else []

/-- The full ramp-up schedule of `testConnections`. -/
def rampSchedule (target rate : Nat) : List RampEvent :=
  rampScheduleAux target rate target 0

/-- The outcome list after the ramp-up completes, with every slot's unit
resolved through `createConnection` (`outcome i` is how slot `i`'s
`client.connect(...)` promise settled).  Within a chunk the append order
is the units' completion order; the counting claims proved below are
order-independent, so the slot order is used to represent it. -/
def testResults (target rate maxRetries : Nat)
    (outcome : Nat → Except String ConnectionResult) : List ConnectionResult :=
  (chunkSlots target rate).flatten.map
    fun i => createConnectionRecord maxRetries (outcome i)

/-!
## Statistics Aggregator: `ConnectionTester.getConnectionStats` and the
rates of `printSummary`
-/

/-- The snapshot returned by `getConnectionStats`. -/
structure ConnectionStats where
  total : Nat
  successful : Nat
  failed : Nat
  active : Nat
  disconnected : Nat
  spontaneousDisconnections : Nat
deriving DecidableEq, Repr

/-- Aggregator `ConnectionTester.getConnectionStats`, a function of the outcome list
alone: the five filters of the source (`r.success && r.isActive` tests JS
truthiness of the optional boolean). -/
def getConnectionStats (results : List ConnectionResult) : ConnectionStats :=
  { total := results.length
    successful := (results.filter (fun r => r.success)).length
    failed := (results.filter (fun r => !r.success)).length
    active := (results.filter (fun r => r.success && r.isActive == some true)).length
    disconnected :=
      (results.filter (fun r => r.success && !(r.isActive == some true))).length
    spontaneousDisconnections :=
      (results.filter (fun r => r.spontaneousDisconnect == some true)).length }

/-- The retention rate computed in `printSummary` / the `TEST_COMPLETE`
log entry: `currentlyActive.length / Math.max(successful.length, 1)` (the
source scales it by 100 for percentage display). -/
def retentionRate (results : List ConnectionResult) : ℚ :=
  ((getConnectionStats results).active : ℚ)
    / max ((getConnectionStats results).successful : ℚ) 1

/-- The stability rate of `printSummary`:
`(successful.length - spontaneouslyDisconnected.length) /
Math.max(successful.length, 1)` (scaled by 100 in the source for
percentage display). -/
def stabilityRate (results : List ConnectionResult) : ℚ :=
  (((getConnectionStats results).successful : ℚ)
      - ((getConnectionStats results).spontaneousDisconnections : ℚ))
    / max ((getConnectionStats results).successful : ℚ) 1

/-!
## Outcome provenance

`ConnectionResult` does not store the client identity; the only link
between a record and the unit that produced it is the position at which
the record was appended.  `SlotOutcome` pairs each appended record with
the slot of the unit that produced it, to state which record *belongs* to
a disconnecting client. -/
structure SlotOutcome where
  slot : Nat
  res : ConnectionResult
deriving DecidableEq, Repr, Inhabited

/-- The invariant relating activity to success: only successfully
established records are ever marked active. -/
def SuccessInvariant (s : TesterState) : Prop :=
  ∀ r ∈ s.results, r.isActive = some true → r.success = true

/-!
## Helper lemmas
-/

/-- The delays awaited from attempt `a ≥ 1` on are the backoff values of
the consecutive attempts the loop actually reaches. -/
theorem connectDelaysAux_eq (f : AttemptFun) (base : Nat) :
    ∀ rem a, 1 ≤ a →
      connectDelaysAux f base rem a
        = (List.range' a (attemptsUsedAux f rem a)).map (backoffDelay base) := by
  intro rem
  induction rem with
  | zero => intro a ha; simp [connectDelaysAux, attemptsUsedAux]
  | succ n ih =>
    intro a ha
    have ha0 : (a == 0) = false := by simp; omega
    have hcomm : 1 + attemptsUsedAux f n (a + 1) = attemptsUsedAux f n (a + 1) + 1 :=
      Nat.add_comm _ _
    simp only [connectDelaysAux, attemptsUsedAux, ha0, Bool.false_eq_true, if_false]
    cases hf : f a with
    | ok r =>
      cases hs : r.success with
      | true => simp [hs, List.range'_succ]
      | false =>
        simp only [hs, Bool.false_eq_true, if_false]
        rw [ih (a + 1) (by omega), hcomm, List.range'_succ]
        simp
    | error e =>
      rw [ih (a + 1) (by omega), hcomm, List.range'_succ]
      simp

/-- Partition lemma: `filter p` and `filter (not ∘ p)` split a list's length. -/
theorem filter_partition_length {α : Type} (p : α → Bool) (l : List α) :
    (l.filter p).length + (l.filter (fun a => !p a)).length = l.length := by
  induction l with
  | nil => rfl
  | cons a l ih =>
    by_cases h : p a <;> simp [List.filter, h, ← ih] <;> omega

/-- Field `finalAttempt` of the retry loop's outcome is `attempt == maxRetries`
on the attempt that produced it. -/
theorem connectAux_finalAttempt_iff (f : AttemptFun) (m : Nat) :
    ∀ rem a le, a + rem = m + 1 →
      ((connectAux f m rem a le).finalAttempt = some true
        ↔ (connectAux f m rem a le).retryCount = some m) := by
  intro rem
  induction rem with
  | zero => intro a le h; simp [connectAux, exhaustedResult]
  | succ n ih =>
    intro a le h
    simp only [connectAux]
    cases hf : f a with
    | ok r =>
      by_cases hs : r.success
      · simp only [hs, if_true, Option.some_inj]
        constructor
        · intro hh; simpa using hh
        · intro hh; simpa using hh
      · simpa [hs] using ih (a + 1) (orUnknown r.errorMessage) (by omega)
    | error e => exact ih (a + 1) e (by omega)

/-- A resolution of `attemptConnection` that connects successfully. -/
def earlySuccessResult : ConnectionResult :=
  { success := true, connectionTime := 5, socketId := some "sock-0" }

/-!
## Claims
-/

/-- Claim C6. In the connection attempt loop, attempt 0 is immediate and
every subsequent attempt `k ≥ 1` the loop reaches is preceded by a delay
of exactly `baseDelayMs * 2^(k-1)` — deterministic, with no jitter and no
cap: the awaited delays are precisely the backoff formula evaluated on the
consecutive attempt numbers `1, 2, ...`; with `baseDelayMs = 1000` the
delays before attempts 1 through 5 are 1000, 2000, 4000, 8000, 16000 ms. -/
theorem C6_exponential_backoff (f : AttemptFun) (m base : Nat) :
    connectDelays f m base
      = (List.range' 1 (attemptsUsed f m - 1)).map (fun k => base * 2 ^ (k - 1))
    ∧ connectDelays (fun _ => Except.error "connect ECONNREFUSED") 5 1000
      = [1000, 2000, 4000, 8000, 16000] := by
  constructor
  · show connectDelaysAux f base (m + 1) 0 = _
    have hrw : (fun k => base * 2 ^ (k - 1)) = backoffDelay base := rfl
    rw [hrw]
    have hsub : ∀ u : Nat, 1 + u - 1 = u := by omega
    simp only [connectDelays, attemptsUsed, connectDelaysAux, attemptsUsedAux]
    cases hf : f 0 with
    | ok r =>
      cases hs : r.success with
      | true => simp [hs]
      | false =>
        simp only [hs, Bool.false_eq_true, if_false, beq_self_eq_true, if_true,
          List.nil_append, hsub, Nat.zero_add]
        exact connectDelaysAux_eq f base m 1 (by omega)
    | error e =>
      simp only [beq_self_eq_true, if_true, List.nil_append, hsub, Nat.zero_add]
      exact connectDelaysAux_eq f base m 1 (by omega)
  · decide

/-- Claim C8, amended. `finalAttempt` is true iff the outcome was produced
on attempt number `maxRetries` — equivalently iff `retryCount =
maxRetries`; on a success at an earlier attempt, `finalAttempt` is `false`
even though no further attempt occurs. -/
theorem C8_finalAttempt_iff_last_permitted (f : AttemptFun) (m : Nat) :
    (connect f m).finalAttempt = some true ↔ (connect f m).retryCount = some m :=
  connectAux_finalAttempt_iff f m (m + 1) 0 "" (by omega)

/-- Claim C8, counterexample. With `maxRetries = 3` and a connection that
succeeds on attempt 0, the loop performs exactly one attempt — no further
attempt occurs — yet the returned outcome has `finalAttempt = some false`,
refuting "finalAttempt is true iff no further attempt would occur". -/
theorem C8_counterexample :
    attemptsUsed (fun _ => Except.ok earlySuccessResult) 3 = 1
    ∧ (connect (fun _ => Except.ok earlySuccessResult) 3).finalAttempt = some false := by
  decide

/-- Claim C5. `getConnectionStats` is a pure function of the outcome list:
`active` counts records with `success` and `isActive`, `disconnected`
counts `success` without `isActive`, `spontaneousDisconnections` counts
records flagged `spontaneousDisconnect`; the retention rate is
`active / max(successful, 1)` and the stability rate
`(successful − spontaneousDisconnections) / max(successful, 1)`; with
`successful = 0` (and spontaneous flags only ever set on successful
records, which the handler guard enforces) both rates are the defined
value `0` — the `max(successful, 1)` denominator makes the division total,
never NaN and never a throw. -/
theorem C5_stats_aggregator (results : List ConnectionResult) :
    (getConnectionStats results).active
        = results.countP (fun r => r.success && r.isActive == some true)
    ∧ (getConnectionStats results).disconnected
        = results.countP (fun r => r.success && !(r.isActive == some true))
    ∧ (getConnectionStats results).spontaneousDisconnections
        = results.countP (fun r => r.spontaneousDisconnect == some true)
    ∧ retentionRate results
        = ((getConnectionStats results).active : ℚ)
            / max ((getConnectionStats results).successful : ℚ) 1
    ∧ stabilityRate results
        = (((getConnectionStats results).successful : ℚ)
              - ((getConnectionStats results).spontaneousDisconnections : ℚ))
            / max ((getConnectionStats results).successful : ℚ) 1
    ∧ ((getConnectionStats results).successful = 0 →
        (∀ r ∈ results, r.spontaneousDisconnect = some true → r.success = true) →
        retentionRate results = 0 ∧ stabilityRate results = 0) := by
  refine ⟨(List.countP_eq_length_filter _ _).symm,
    (List.countP_eq_length_filter _ _).symm,
    (List.countP_eq_length_filter _ _).symm, rfl, rfl, ?_⟩
  intro hzero hspont
  have hsucc0 : results.countP (fun r => r.success) = 0 := by
    rw [List.countP_eq_length_filter]; exact hzero
  have hactive : (getConnectionStats results).active = 0 := by
    have hle : results.countP (fun r => r.success && r.isActive == some true)
        ≤ results.countP (fun r => r.success) := by
      apply List.countP_mono_left
      intro r _ hr
      exact (Bool.and_elim_left hr)
    rw [show (getConnectionStats results).active
        = results.countP (fun r => r.success && r.isActive == some true) from
        (List.countP_eq_length_filter _ _).symm]
    omega
  have hspont0 : (getConnectionStats results).spontaneousDisconnections = 0 := by
    have hle : results.countP (fun r => r.spontaneousDisconnect == some true)
        ≤ results.countP (fun r => r.success) := by
      apply List.countP_mono_left
      intro r hr hflag
      exact hspont r hr (by simpa using hflag)
    rw [show (getConnectionStats results).spontaneousDisconnections
        = results.countP (fun r => r.spontaneousDisconnect == some true) from
        (List.countP_eq_length_filter _ _).symm]
    omega
  constructor
  · unfold retentionRate
    rw [hactive, hzero]
    norm_num
  · unfold stabilityRate
    rw [hspont0, hzero]
    norm_num

/-- Claim C5, witness. On the empty outcome list `successful = 0` and both
rates evaluate to `0`. -/
theorem C5_witness :
    retentionRate [] = 0 ∧ stabilityRate [] = 0 :=
  (C5_stats_aggregator []).2.2.2.2.2 (by decide) (by simp)

/-- Flattening the chunks of the ramp-up loop enumerates exactly the
slots `i, i+1, ..., target-1`, provided the fuel covers the remaining
iterations. -/
theorem chunkSlotsAux_flatten (target rate : Nat) (hr : 0 < rate) :
    ∀ fuel i, target - i ≤ fuel →
      (chunkSlotsAux target rate fuel i).flatten = List.range' i (target - i) := by
  intro fuel
  induction fuel with
  | zero =>
    intro i hi
    have hle : target ≤ i := by omega
    rw [chunkSlotsAux, Nat.sub_eq_zero_of_le hle]
    simp
  | succ n ih =>
    intro i hi
    by_cases h : i < target
    · rw [chunkSlotsAux, if_pos ⟨h, hr⟩, List.flatten_cons, ih (i + rate) (by omega)]
      by_cases h2 : i + rate ≤ target
      · have hmin : min rate (target - i) = rate := by omega
        have hlen : target - i = target - (i + rate) + rate := by omega
        rw [hmin, hlen]
        have happ := List.range'_append i rate (target - (i + rate)) 1
        simp only [Nat.one_mul] at happ
        exact happ
      · have hmin : min rate (target - i) = target - i := by omega
        have hzero : target - (i + rate) = 0 := by omega
        rw [hmin, hzero]
        simp
    · rw [chunkSlotsAux, if_neg (by omega), Nat.sub_eq_zero_of_le (by omega)]
      simp

/-- Claim C9. The ramp-up splits `targetConnections` into consecutive
chunks of `connectionRate` slots (smaller final chunk when the rate does
not divide the target): sequentially flattening the chunks enumerates
every slot exactly once in chunk order, so all units of chunk K are
launched and awaited before any unit of chunk K+1; with
`targetConnections = 250` and `connectionRate = 100` exactly 3 chunks of
sizes 100, 100, 50 are issued, and the fixed 1-second pause appears only
between consecutive chunks, never after the last one. -/
theorem C9_chunked_rampup (target rate : Nat) :
    (0 < rate → (chunkSlots target rate).flatten = List.range target)
    ∧ (chunkSlots 250 100).map List.length = [100, 100, 50]
    ∧ rampSchedule 250 100
        = [RampEvent.chunk (List.range' 0 100), RampEvent.pause,
           RampEvent.chunk (List.range' 100 100), RampEvent.pause,
           RampEvent.chunk (List.range' 200 50)] := by
  refine ⟨fun hr => ?_, by decide, by decide⟩
  rw [chunkSlots, chunkSlotsAux_flatten target rate hr target 0 (by omega)]
  rw [List.range_eq_range']
  simp

/-- Claim C9, witness. A rate that does not divide the target: 5 slots at
rate 2 flatten to the slots 0..4 in order. -/
theorem C9_witness :
    (chunkSlots 5 2).flatten = List.range 5 :=
  (C9_chunked_rampup 5 2).1 (by decide)

/-- Claim C4. After a run completes, the outcome list holds exactly
`targetConnections` records — each slot of each chunk contributes exactly
one record, whether its attempt unit resolved normally or threw — and the
records counted successful plus those counted failed partition that
total. -/
theorem C4_outcome_partition (target rate m : Nat)
    (f : Nat → Except String ConnectionResult) (hr : 0 < rate) :
    (testResults target rate m f).length = target
    ∧ ((testResults target rate m f).filter (fun r => r.success)).length
        + ((testResults target rate m f).filter (fun r => !r.success)).length
        = target := by
  have hlen : (testResults target rate m f).length = target := by
    unfold testResults
    rw [List.length_map, chunkSlots,
      chunkSlotsAux_flatten target rate hr target 0 (by omega)]
    simp
  exact ⟨hlen, by rw [filter_partition_length]; exact hlen⟩

/-- Claim C4, witness. Three slots at rate 2, every unit throwing: three
failed records, zero successful. -/
theorem C4_witness :
    (testResults 3 2 0 (fun _ => Except.error "boom")).length = 3
    ∧ ((testResults 3 2 0 (fun _ => Except.error "boom")).filter
          (fun r => r.success)).length
        + ((testResults 3 2 0 (fun _ => Except.error "boom")).filter
            (fun r => !r.success)).length
        = 3 :=
  C4_outcome_partition 3 2 0 (fun _ => Except.error "boom") (by decide)

/-- A record of a connection that succeeded and was already marked
manually disconnected (the state `disconnectAll` leaves behind). -/
def manuallyClosedRecord : ConnectionResult :=
  { success := true, connectionTime := 40, socketId := some "sock-a",
    isActive := some false, disconnectedAt := some 100,
    disconnectionReason := some "manual_disconnect",
    spontaneousDisconnect := some false }

/-- Claim C1, counterexample. The claim says the handler mutates the matched
record only if it is marked both `success` and `isActive`; the source
guard (`resultIndex !== -1 && this.results[resultIndex].success`) checks
`success` alone.  For a record with `success = true` and
`isActive = some false` the handler still rewrites the record (flipping
`spontaneousDisconnect` to `true`) and bumps the disconnection
counters. -/
theorem C1_counterexample :
    manuallyClosedRecord.success = true
    ∧ manuallyClosedRecord.isActive = some false
    ∧ (handleDisconnection ⟨[manuallyClosedRecord], 0, 1, 0⟩ (clientId 0)
          "transport close" 50 200).results
        ≠ [manuallyClosedRecord]
    ∧ ((handleDisconnection ⟨[manuallyClosedRecord], 0, 1, 0⟩ (clientId 0)
          "transport close" 50 200).results.getD 0 default).spontaneousDisconnect
        = some true
    ∧ (handleDisconnection ⟨[manuallyClosedRecord], 0, 1, 0⟩ (clientId 0)
          "transport close" 50 200).spontaneousDisconnections = 1 := by
  decide

/-- Claim C1, amended. The handler mutates the matched outcome record iff
the identity lookup resolves an index whose record is marked `success` —
`isActive` is not part of the guard; on such a match it sets
`isActive = false`, stamps `disconnectedAt`, sets the disconnection
reason, connection duration, `spontaneousDisconnect = true`, and
decrements the active-connection counter with a `Math.max(0, ...)` floor,
so the counter never goes below zero. -/
theorem C1_handler_guard_and_mutation (s : TesterState) (cid : List Char)
    (reason : String) (dur now : Nat) :
    (lookupResultIndex s.results cid = none →
      handleDisconnection s cid reason dur now = s)
    ∧ (∀ i, lookupResultIndex s.results cid = some i →
        ((s.results.getD i default).success = false →
          handleDisconnection s cid reason dur now = s)
        ∧ ((s.results.getD i default).success = true →
          handleDisconnection s cid reason dur now =
            { s with
                results := s.results.set i
                  { s.results.getD i default with
                      isActive := some false
                      disconnectedAt := some now
                      disconnectionReason := some reason
                      connectionDuration := some dur
                      spontaneousDisconnect := some true }
                activeConnections := max 0 (s.activeConnections - 1)
                disconnectedConnections := s.disconnectedConnections + 1
                spontaneousDisconnections := s.spontaneousDisconnections + 1 }))
    ∧ 0 ≤ max 0 (s.activeConnections - 1) := by
  refine ⟨?_, ?_, le_max_left 0 _⟩
  · intro hnone
    unfold handleDisconnection
    rw [hnone]
  · intro i hsome
    constructor
    · intro hfail
      unfold handleDisconnection
      rw [hsome]
      simp only [hfail, Bool.false_eq_true, if_false]
    · intro hsucc
      unfold handleDisconnection
      rw [hsome]
      simp only [applyDisconnection, hsucc, if_true]

/-- A live successful record as `createConnection` appends it. -/
def liveRecord : ConnectionResult :=
  { success := true, connectionTime := 7, socketId := some "sock-b",
    isActive := some true }

/-- Record `liveRecord` after the handler processed a "ping timeout" drop at
time 77 with duration 9. -/
def liveRecordDropped : ConnectionResult :=
  { success := true, connectionTime := 7, socketId := some "sock-b",
    isActive := some false, disconnectedAt := some 77,
    disconnectionReason := some "ping timeout",
    connectionDuration := some 9, spontaneousDisconnect := some true }

/-- Claim C1, witness. A one-record state with a live successful record: the
handler rewrites it as described and floors the counter. -/
theorem C1_witness :
    handleDisconnection ⟨[liveRecord], 1, 0, 0⟩ (clientId 0) "ping timeout" 9 77
      = ⟨[liveRecordDropped], 0, 1, 1⟩ := by
  have h := (C1_handler_guard_and_mutation ⟨[liveRecord], 1, 0, 0⟩
    (clientId 0) "ping timeout" 9 77).2.1 0 (by decide)
  rw [h.2 (by decide)]
  decide

/-- The record of the chunk unit that resolved first (`client-1`). -/
def resolvedFirst : ConnectionResult :=
  { success := true, connectionTime := 3, socketId := some "sock-1",
    isActive := some true }

/-- The record of the chunk unit that resolved second (`client-0`). -/
def resolvedSecond : ConnectionResult :=
  { success := true, connectionTime := 9, socketId := some "sock-0",
    isActive := some true }

/-- Two units of one chunk (`client-0` and `client-1`) whose outcomes were
appended in completion order, the unit `client-1` having resolved first:
`client-1`'s record sits at position 0, `client-0`'s at position 1. -/
def outOfOrderChunk : List SlotOutcome :=
  [{ slot := 1, res := resolvedFirst }, { slot := 0, res := resolvedSecond }]

/-- Claim C2. The handler's identity-to-outcome lookup is exactly the
numeric suffix parsed out of the identity string used as a list position:
when the two units of a chunk complete out of slot order, the lookup for
`client-1` resolves position 1 — which holds `client-0`'s record — while
`client-1`'s own record sits at position 0.  The lookup is *not*
order-independent, contradicting the requirement. -/
theorem C2_lookup_depends_on_append_order :
    lookupResultIndex (outOfOrderChunk.map SlotOutcome.res) (clientId 1) = some 1
    ∧ (outOfOrderChunk.getD 1 default).slot = 0
    ∧ outOfOrderChunk.findIdx (fun o => o.slot == 1) = 0 := by
  decide

/-- Marking a record manually disconnected twice is the same as doing it
once: after the first pass no record still has `isActive = some true`. -/
theorem markManualDisconnect_idem (now now2 : Nat) (r : ConnectionResult) :
    markManualDisconnect now2 (markManualDisconnect now r) = markManualDisconnect now r := by
  unfold markManualDisconnect
  by_cases h : r.isActive = some true
  · rw [if_pos h]
    rw [if_neg (by simp)]
  · rw [if_neg h, if_neg h]

/-- Claim C3. The shutdown routine marks every still-active outcome record
inactive with `disconnectionReason = "manual_disconnect"` and
`spontaneousDisconnect = false`, and that marking happens in the trace
strictly before the transport close it issues for the unit of the same
index; after the routine no record has `isActive = true` and the active
counter is zero; and running the routine a second time returns the state
unchanged — no record is re-mutated, the disconnection counters are not
double-counted, and no counter goes negative. -/
theorem C3_shutdown_marks_then_closes (s : TesterState) (now now2 : Nat) :
    (∀ i, i < s.results.length →
      (s.results.getD i default).isActive = some true →
      (∃ l1 l2, shutdownTrace s
          = l1 ++ ShutdownEvent.mark i :: ShutdownEvent.close i :: l2)
      ∧ (disconnectAllState s now).results.getD i default
          = { s.results.getD i default with
                isActive := some false
                disconnectedAt := some now
                disconnectionReason := some "manual_disconnect"
                spontaneousDisconnect := some false })
    ∧ (∀ r ∈ (disconnectAllState s now).results, r.isActive ≠ some true)
    ∧ (disconnectAllState s now).activeConnections = 0
    ∧ disconnectAllState (disconnectAllState s now) now2 = disconnectAllState s now := by
  refine ⟨?_, ?_, rfl, ?_⟩
  · intro i hi hact
    constructor
    · have hsplit : List.range s.results.length
          = List.range' 0 i ++ List.range' i (s.results.length - i) := by
        rw [List.range_eq_range']
        have happ := List.range'_append 0 i (s.results.length - i) 1
        simp only [Nat.one_mul, Nat.zero_add] at happ
        rw [happ]
        congr 1
        omega
      have hstep : List.range' i (s.results.length - i)
          = i :: List.range' (i + 1) (s.results.length - i - 1) := by
        have h1 : s.results.length - i = (s.results.length - i - 1) + 1 := by omega
        conv_lhs => rw [h1, List.range'_succ]
      have hact2 : (s.results[i]?.getD default).isActive = some true := by
        rw [← List.getD_eq_getElem?_getD]
        exact hact
      refine ⟨(List.range' 0 i).flatMap fun j =>
          (if (s.results.getD j default).isActive = some true
           then [ShutdownEvent.mark j] else []) ++ [ShutdownEvent.close j],
        (List.range' (i + 1) (s.results.length - i - 1)).flatMap fun j =>
          (if (s.results.getD j default).isActive = some true
           then [ShutdownEvent.mark j] else []) ++ [ShutdownEvent.close j], ?_⟩
      unfold shutdownTrace
      rw [hsplit, List.flatMap_append, hstep]
      simp [hact2]
    · have hlt : i < ((disconnectAllState s now).results).length := by
        unfold disconnectAllState
        simpa using hi
      rw [List.getD_eq_getElem _ _ hlt]
      unfold disconnectAllState
      simp only [List.getElem_map]
      rw [← List.getD_eq_getElem s.results default hi]
      unfold markManualDisconnect
      rw [if_pos hact]
  · intro r hr
    unfold disconnectAllState at hr
    simp only [List.mem_map] at hr
    obtain ⟨r0, _, rfl⟩ := hr
    unfold markManualDisconnect
    by_cases h : r0.isActive = some true
    · rw [if_pos h]; simp
    · rw [if_neg h]; exact h
  · unfold disconnectAllState
    simp only [List.map_map]
    congr 1
    apply List.map_congr_left
    intro r _
    exact markManualDisconnect_idem now now2 r

/-- A failed outcome record, as the catch path of `createConnection`
appends it. -/
def failedRecord : ConnectionResult :=
  { success := false, errorMessage := some "Connection timeout",
    retryCount := some 3, finalAttempt := some true }

/-- The orchestrator state right before shutdown in the witness scenario:
one still-active successful record and one failed record. -/
def preShutdownState : TesterState :=
  { results := [liveRecord, failedRecord]
    activeConnections := 1
    disconnectedConnections := 0
    spontaneousDisconnections := 0 }

/-- Claim C3, witness. On a concrete two-record state the active record's
mark precedes its close in the trace, the marking is as specified, the
counter is reset to zero, and a second shutdown changes nothing. -/
theorem C3_witness :
    ((∃ l1 l2, shutdownTrace preShutdownState
        = l1 ++ ShutdownEvent.mark 0 :: ShutdownEvent.close 0 :: l2)
      ∧ (disconnectAllState preShutdownState 5).results.getD 0 default
          = { liveRecord with
                isActive := some false
                disconnectedAt := some 5
                disconnectionReason := some "manual_disconnect"
                spontaneousDisconnect := some false })
    ∧ (disconnectAllState preShutdownState 5).activeConnections = 0
    ∧ disconnectAllState (disconnectAllState preShutdownState 5) 6
        = disconnectAllState preShutdownState 5 := by
  have h := C3_shutdown_marks_then_closes preShutdownState 5 6
  exact ⟨h.1 0 (by decide) (by decide), h.2.2.1, h.2.2.2⟩

/-- Reduction of the handler when the lookup misses. -/
theorem handleDisconnection_none (s : TesterState) (cid : List Char)
    (reason : String) (dur now : Nat)
    (h : lookupResultIndex s.results cid = none) :
    handleDisconnection s cid reason dur now = s := by
  unfold handleDisconnection
  rw [h]

/-- Reduction of the handler when the lookup resolves index `i`. -/
theorem handleDisconnection_some (s : TesterState) (cid : List Char)
    (reason : String) (dur now : Nat) (i : Nat)
    (h : lookupResultIndex s.results cid = some i) :
    handleDisconnection s cid reason dur now =
      if (s.results.getD i default).success then
        { s with
            results := s.results.set i
              (applyDisconnection now dur reason (s.results.getD i default))
            activeConnections := max 0 (s.activeConnections - 1)
            disconnectedConnections := s.disconnectedConnections + 1
            spontaneousDisconnections := s.spontaneousDisconnections + 1 }
      else s := by
  unfold handleDisconnection
  rw [h]

/-- Claim C10. Every outcome record ever marked active is a successful one:
a normally-resolved outcome is appended with `isActive` set to exactly its
`success` value, the invariant "`isActive = true` implies `success =
true`" is preserved by the append, the disconnection handler and the
shutdown routine, and a record with `success = false` is never mutated by
the handler or the shutdown routine — its disconnection fields are never
set. -/
theorem C10_failed_records_never_mutated (s : TesterState) (m : Nat)
    (o : Except String ConnectionResult) (cid : List Char) (reason : String)
    (dur now now2 : Nat) (hinv : SuccessInvariant s) :
    (∀ r, createConnectionRecord m (Except.ok r) = { r with isActive := some r.success })
    ∧ SuccessInvariant (appendOutcome s m o)
    ∧ SuccessInvariant (handleDisconnection s cid reason dur now)
    ∧ SuccessInvariant (disconnectAllState s now2)
    ∧ (∀ i, (s.results.getD i default).success = false →
        (handleDisconnection s cid reason dur now).results.getD i default
            = s.results.getD i default
        ∧ (disconnectAllState s now2).results.getD i default
            = s.results.getD i default) := by
  refine ⟨fun r => rfl, ?_, ?_, ?_, ?_⟩
  · intro r hr
    simp only [appendOutcome, List.mem_append, List.mem_singleton] at hr
    rcases hr with hr | rfl
    · exact hinv r hr
    · intro hact
      cases o with
      | ok r0 =>
        simp only [createConnectionRecord] at hact ⊢
        simpa using hact
      | error e => simp only [createConnectionRecord] at hact; cases hact
  · cases h : lookupResultIndex s.results cid with
    | none =>
      rw [handleDisconnection_none s cid reason dur now h]
      exact hinv
    | some i =>
      rw [handleDisconnection_some s cid reason dur now i h]
      by_cases hs : (s.results.getD i default).success
      · rw [if_pos hs]
        intro r hr
        rcases List.mem_or_eq_of_mem_set hr with hr0 | rfl
        · exact hinv r hr0
        · intro hact
          simp [applyDisconnection] at hact
      · rw [if_neg hs]
        exact hinv
  · intro r hr
    simp only [disconnectAllState, List.mem_map] at hr
    obtain ⟨r0, hr0, rfl⟩ := hr
    unfold markManualDisconnect
    by_cases h : r0.isActive = some true
    · rw [if_pos h]; simp
    · rw [if_neg h]; exact fun hact => hinv r0 hr0 hact
  · intro i hfaili
    constructor
    · cases h : lookupResultIndex s.results cid with
      | none =>
        rw [handleDisconnection_none s cid reason dur now h]
      | some j =>
        rw [handleDisconnection_some s cid reason dur now j h]
        by_cases hs : (s.results.getD j default).success
        · rw [if_pos hs]
          have hji : j ≠ i := by
            intro hji
            rw [hji, hfaili] at hs
            cases hs
          simp only [List.getD_eq_getElem?_getD]
          rw [List.getElem?_set_ne hji]
        · rw [if_neg hs]
    · by_cases hi : i < s.results.length
      · have hmem : s.results.getD i default ∈ s.results := by
          rw [List.getD_eq_getElem _ _ hi]
          exact List.getElem_mem hi
        have hnact : ¬ (s.results.getD i default).isActive = some true := by
          intro hact
          rw [hinv _ hmem hact] at hfaili
          cases hfaili
        have hlt : i < ((disconnectAllState s now2).results).length := by
          unfold disconnectAllState
          simpa using hi
        rw [List.getD_eq_getElem _ _ hlt]
        unfold disconnectAllState
        simp only [List.getElem_map]
        rw [← List.getD_eq_getElem s.results default hi]
        unfold markManualDisconnect
        rw [if_neg hnact]
      · have hge : s.results.length ≤ i := by omega
        have hge2 : ((disconnectAllState s now2).results).length ≤ i := by
          unfold disconnectAllState
          simpa using hge
        rw [List.getD_eq_getElem?_getD, List.getD_eq_getElem?_getD,
          List.getElem?_eq_none hge, List.getElem?_eq_none hge2]

/-- Claim C10, witness. On a concrete reachable state (one live successful
record, one failed record) the invariant is preserved by a disconnection
event and the failed record at position 1 is untouched by both the
handler and the shutdown routine. -/
theorem C10_witness :
    SuccessInvariant
      (handleDisconnection preShutdownState (clientId 0) "transport error" 3 50)
    ∧ (handleDisconnection preShutdownState (clientId 0) "transport error" 3 50).results.getD 1 default
        = preShutdownState.results.getD 1 default
    ∧ (disconnectAllState preShutdownState 60).results.getD 1 default
        = preShutdownState.results.getD 1 default := by
  have h := C10_failed_records_never_mutated preShutdownState 3 (Except.error "x")
    (clientId 0) "transport error" 3 50 60 (by unfold SuccessInvariant; decide)
  have h5 := h.2.2.2.2 1 (by decide)
  exact ⟨h.2.2.1, h5.1, h5.2⟩

/-- Attempt `a` of `attemptConnection` resolved unsuccessfully or
rejected. -/
def AttemptFails (f : AttemptFun) (a : Nat) : Prop :=
  match f a with
  | .ok r => r.success = false
  | .error _ => True

/-- The last observed error of a run whose final attempt is attempt
`maxRetries`. -/
def lastAttemptError (f : AttemptFun) (m : Nat) : String :=
  match f m with
  | .ok r => orUnknown r.errorMessage
  | .error e => e

/-- The loop performs at most as many attempts as it has iterations. -/
theorem attemptsUsedAux_le (f : AttemptFun) :
    ∀ rem a, attemptsUsedAux f rem a ≤ rem := by
  intro rem
  induction rem with
  | zero => intro a; simp [attemptsUsedAux]
  | succ n ih =>
    intro a
    unfold attemptsUsedAux
    cases f a with
    | ok r =>
      show (if r.success = true then 1 else 1 + attemptsUsedAux f n (a + 1)) ≤ n + 1
      by_cases h : r.success = true
      · rw [if_pos h]
        omega
      · rw [if_neg h]
        have := ih (a + 1)
        omega
    | error e =>
      show 1 + attemptsUsedAux f n (a + 1) ≤ n + 1
      have := ih (a + 1)
      omega

/-- The outcome's `retryCount` is the attempt number of the resolving
attempt, which never exceeds `maxRetries`. -/
theorem connectAux_retryCount (f : AttemptFun) (m : Nat) :
    ∀ rem a le, a + rem = m + 1 →
      ∃ k, (connectAux f m rem a le).retryCount = some k ∧ k ≤ m := by
  intro rem
  induction rem with
  | zero => intro a le h; exact ⟨m, rfl, Nat.le_refl m⟩
  | succ n ih =>
    intro a le h
    simp only [connectAux]
    cases hf : f a with
    | ok r =>
      cases hs : r.success with
      | true =>
        simp only [hs, if_true]
        exact ⟨a, rfl, by omega⟩
      | false =>
        simp only [hs, Bool.false_eq_true, if_false]
        exact ih (a + 1) _ (by omega)
    | error e => exact ih (a + 1) e (by omega)

/-- When every attempt from `a` through `maxRetries` fails, the loop runs
to exhaustion and returns the terminal failure outcome carrying the error
of the last attempt. -/
theorem connectAux_all_fail (f : AttemptFun) (m : Nat) :
    ∀ rem a le, a + rem = m + 1 → 1 ≤ rem →
      (∀ b, a ≤ b → b ≤ m → AttemptFails f b) →
      connectAux f m rem a le = exhaustedResult m (lastAttemptError f m) := by
  intro rem
  induction rem with
  | zero => intro a le h h1; omega
  | succ n ih =>
    intro a le h _ hfail
    have ham : a ≤ m := by omega
    simp only [connectAux]
    cases hf : f a with
    | ok r =>
      have hfa : r.success = false := by
        have hh := hfail a (Nat.le_refl a) ham
        unfold AttemptFails at hh
        rw [hf] at hh
        exact hh
      simp only [hfa, Bool.false_eq_true, if_false]
      cases n with
      | zero =>
        have ha : a = m := by omega
        subst ha
        simp only [connectAux]
        unfold lastAttemptError
        rw [hf]
      | succ n2 =>
        exact ih (a + 1) _ (by omega) (by omega)
          (fun b hb1 hb2 => hfail b (by omega) hb2)
    | error e =>
      cases n with
      | zero =>
        have ha : a = m := by omega
        subst ha
        simp only [connectAux]
        unfold lastAttemptError
        rw [hf]
      | succ n2 =>
        exact ih (a + 1) e (by omega) (by omega)
          (fun b hb1 hb2 => hfail b (by omega) hb2)

/-- Claim C7. Any call of the connection attempt unit performs at most
`maxRetries + 1` attempts; the returned outcome's `retryCount` lies in
`[0, maxRetries]`; when every attempt fails, the unit *returns* (it never
throws — the model is a total function into `ConnectionResult`) the
single terminal outcome with `success = false`, `finalAttempt = true` and
an error message carrying the last observed error (`exhaustedResult`
packs `failMsg (maxRetries+1) lastError`); and a rejection reaching
`createConnection` is caught and becomes a failed outcome record rather
than an exception escaping the orchestrator's per-connection path. -/
theorem C7_bounded_retries_never_throws (f : AttemptFun) (m : Nat) :
    attemptsUsed f m ≤ m + 1
    ∧ (∃ k, (connect f m).retryCount = some k ∧ k ≤ m)
    ∧ (∀ e, (createConnectionRecord m (Except.error e)).success = false
        ∧ (createConnectionRecord m (Except.error e)).finalAttempt = some true
        ∧ (createConnectionRecord m (Except.error e)).errorMessage = some e)
    ∧ ((∀ b, b ≤ m → AttemptFails f b) →
        connect f m = exhaustedResult m (lastAttemptError f m)) :=
  ⟨attemptsUsedAux_le f (m + 1) 0,
   connectAux_retryCount f m (m + 1) 0 "" (by omega),
   fun e => ⟨rfl, rfl, rfl⟩,
   fun hfail => connectAux_all_fail f m (m + 1) 0 "" (by omega) (by omega)
     (fun b hb1 hb2 => hfail b hb2)⟩

/-- Claim C7, witness. With `maxRetries = 1` and every attempt rejecting
with `ECONNREFUSED`, at most 2 attempts run and the unit returns the
terminal failure outcome carrying that error. -/
theorem C7_witness :
    attemptsUsed (fun _ => Except.error "ECONNREFUSED") 1 ≤ 2
    ∧ connect (fun _ => Except.error "ECONNREFUSED") 1
        = exhaustedResult 1 "ECONNREFUSED" := by
  have h := C7_bounded_retries_never_throws (fun _ => Except.error "ECONNREFUSED") 1
  have h4 := h.2.2.2 (fun b _ => by unfold AttemptFails; exact True.intro)
  exact ⟨h.1, h4⟩

end SocketBenchmark
